import Mathlib

/-!
Verification of the error-identity registry in `lib/internal/errors.js`:
a process-wide map from error codes to message templates (fixed strings or
formatting functions), a resolver `message(key, args)`, and a factory
`makeNodeError(Base)` producing coded error kinds.

The JavaScript is shallowly embedded: dynamic values become the inductive
`Value`, the `messages` Map becomes an association list with `Map.get` /
`Map.set` semantics, thrown `AssertionError`s become `Except` errors, and
the in-place `args.unshift(msg)` mutation becomes explicit state passing
(the resolver returns the final contents of the `args` array alongside its
result). The injected sprintf-style formatter `util.format` is a parameter
`utilFormat`, since `util` is an external collaborator of the module.
-/

set_option autoImplicit false

namespace NodeErrors

/-- A JavaScript runtime value, restricted to the shapes that reach this
module: strings, (integral) numbers, booleans, `null`, `undefined`, symbols
and arrays. Function values are kept apart, in `Template`. -/
inductive Value where
  | str : String → Value
  | num : Int → Value
  | bool : Bool → Value
  | null : Value
  | undefined : Value
  | sym : String → Value
  | arr : List Value → Value

/-- The JavaScript `typeof` operator on an embedded value
(`typeof null` is `"object"`, as in the language). -/
def typeof : Value → String
  | .str _ => "string"
  | .num _ => "number"
  | .bool _ => "boolean"
  | .null => "object"
  | .undefined => "undefined"
  | .sym _ => "symbol"
  | .arr _ => "object"

/-- JavaScript truthiness of an embedded value: the empty string, zero,
`false`, `null` and `undefined` are falsy; symbols and arrays are truthy. -/
def truthy : Value → Bool
  | .str s => if s = "" then false else true
  | .num n => if n = 0 then false else true
  | .bool b => b
  | .null => false
  | .undefined => false
  | .sym _ => true
  | .arr _ => true

mutual

/-- The JavaScript `String(v)` coercion on an embedded value. An array
stringifies as its elements joined with commas, with `null` and `undefined`
elements rendered empty, per `Array.prototype.join`. -/
def jsToString : Value → String
  | .str s => s
  | .num n => toString n
  | .bool b => if b then "true" else "false"
  | .null => "null"
  | .undefined => "undefined"
  | .sym d => "Symbol(" ++ d ++ ")"
  | .arr l => String.intercalate "," (jsToStringElems l)

/-- Stringification of array elements for `Array.prototype.join`:
`null` and `undefined` become the empty string. -/
def jsToStringElems : List Value → List String
  | [] => []
  | .null :: rest => "" :: jsToStringElems rest
  | .undefined :: rest => "" :: jsToStringElems rest
  | v :: rest => jsToString v :: jsToStringElems rest

end

/-- A thrown `assert` failure (Node `AssertionError`), carrying its
message text. -/
structure AssertionError where
  message : String
  deriving DecidableEq, Repr

/-- A stored message template: `messages.set` stores either a string or a
function. Formatting functions may themselves `assert`, so they return in
`Except`. -/
inductive Template where
  | str : String → Template
  | fn : (List Value → Except AssertionError Value) → Template

/-- JavaScript truthiness of a stored template, as tested by
`assert(msg, ...)` in `message`: a function is truthy, a string is truthy
iff non-empty. -/
def templateTruthy : Template → Bool
  | .str s => if s = "" then false else true
  | .fn _ => true

/-- The `messages` Map, as an association list in insertion order. -/
abbrev Registry := List (String × Template)

/-- `Map.prototype.get` on the `messages` map. -/
def mapGet : Registry → String → Option Template
  | [], _ => none
  | (k, t) :: rest, key => if k = key then some t else mapGet rest key

/-- `Map.prototype.set` on the `messages` map: updates the existing entry
in place if the key is present, otherwise appends. -/
def mapSet : Registry → String → Template → Registry
  | [], key, t => [(key, t)]
  | (k, t0) :: rest, key, t =>
    if k = key then (key, t) :: rest else (k, t0) :: mapSet rest key t

/-- The second argument of `E(sym, val)`: any value, or a function. -/
inductive EVal where
  | fn : (List Value → Except AssertionError Value) → EVal
  | val : Value → EVal

/-- `E(sym, val)`: registers a template, storing `val` itself when it is a
function and `String(val)` otherwise. Returns the updated registry. -/
def E (msgs : Registry) (sym : String) (val : EVal) : Registry :=
  match val with
  | .fn f => mapSet msgs sym (.fn f)
  | .val v => mapSet msgs sym (.str (jsToString v))

/-- Renders a found template, mirroring the body of `message` after the
`messages.get(key)` lookup: `assert(msg, ...)` rejects a falsy template
(the empty string); a function template is applied to the arguments
(`fmt.apply(null, args)`, so an absent array means zero arguments) and its
result coerced with `String(...)`; a string template is returned verbatim
when `args` is absent or empty, and otherwise `args.unshift(msg)` runs and
`util.format` is applied to the mutated array. The returned pair is the
resolution outcome and the final contents of the caller's `args` array. -/
def renderTemplate (utilFormat : List Value → Value) (t : Template) (key : String)
    (args : Option (List Value)) :
    Except AssertionError String × Option (List Value) :=
  if templateTruthy t then
    match t with
    | .fn f =>
      match f (args.getD []) with
      | .error e => (.error e, args)
      | .ok v => (.ok (jsToString v), args)
    | .str s =>
      match args with
      | none => (.ok s, none)
      | some l =>
        if l.isEmpty then (.ok s, some l)
        else
          (.ok (jsToString (utilFormat (Value.str s :: l))), some (Value.str s :: l))
  else
    (.error ⟨"An invalid error message key was used: " ++ key ++ "."⟩, args)

/-- The resolver `message(key, args)`. It asserts that `typeof key` is
`"string"`, looks the key up in the registry, asserts that something truthy
was found, and renders the template. The second component of the result is
the final contents of the `args` array (which `args.unshift(msg)` may have
mutated); on a thrown assertion the array is whatever it was when the throw
happened. -/
def message (utilFormat : List Value → Value) (msgs : Registry) (key : Value)
    (args : Option (List Value)) :
    Except AssertionError String × Option (List Value) :=
  match key with
  | .str k =>
    match mapGet msgs k with
    | some t => renderTemplate utilFormat t k args
    | none => (.error ⟨"An invalid error message key was used: " ++ k ++ "."⟩, args)
  | other => (.error ⟨"typeof key is " ++ typeof other ++ ", not string"⟩, args)

/-- A base error kind, as the factory sees it: something constructible from
a message string and exposing a `name`. -/
structure BaseKind where
  name : String
  deriving DecidableEq, Repr

/-- An instance of a factory-produced `NodeError` class: the `super.name`
seen by its `name` getter, the symbol-keyed slot `this[kCode]`, and its
ordinary string-keyed own data properties (the base constructor stores the
resolved message there). `Error.captureStackTrace` is a host diagnostic
hook with no modelled state. -/
structure NodeErrorInstance where
  baseName : String
  kCodeSlot : Value
  ownProps : List (String × Value)

/-- `new (makeNodeError(Base))(key, ...args)`: resolves the message (an
assertion thrown there propagates and no instance is produced), passes it
to the base constructor, and stamps `this[kCode] = key`. -/
def makeNodeError (utilFormat : List Value → Value) (msgs : Registry) (base : BaseKind)
    (key : Value) (args : List Value) : Except AssertionError NodeErrorInstance :=
  (message utilFormat msgs key (some args)).1.map fun m =>
    { baseName := base.name, kCodeSlot := key, ownProps := [("message", Value.str m)] }

/-- The `get name()` accessor: `` `${super.name}[${this[kCode]}]` ``. -/
def NodeErrorInstance.name (e : NodeErrorInstance) : String :=
  e.baseName ++ "[" ++ jsToString e.kCodeSlot ++ "]"

/-- The `get code()` accessor: returns `this[kCode]`. -/
def NodeErrorInstance.code (e : NodeErrorInstance) : Value :=
  e.kCodeSlot

/-- Updates a string-keyed own property, in place if present. -/
def setAssoc : List (String × Value) → String → Value → List (String × Value)
  | [], key, v => [(key, v)]
  | (k, v0) :: rest, key, v =>
    if k = key then (key, v) :: rest else (k, v0) :: setAssoc rest key v

/-- A JavaScript property assignment `e[p] = v` on a `NodeError` instance.
The class prototype defines `name` and `code` as accessor properties with a
getter and no setter, so assignments to those keys leave the instance
unchanged; any other string key creates or updates an own data property. -/
def NodeErrorInstance.setProp (e : NodeErrorInstance) (p : String) (v : Value) :
    NodeErrorInstance :=
  if p = "name" ∨ p = "code" then e
  else { e with ownProps := setAssoc e.ownProps p v }

/-- Reads the `message` own data property stored by the base constructor. -/
def NodeErrorInstance.getMessage (e : NodeErrorInstance) : Value :=
  (List.lookup "message" e.ownProps).getD Value.undefined

/-- The formatting function registered for `ERR_ASSERTION`: `(msg) => msg`. -/
def errAssertionFn (args : List Value) : Except AssertionError Value :=
  .ok (args.getD 0 Value.undefined)

/-- The suffix `. Received type ...` branch of `invalidArgType`:
`actual !== null ? typeof actual : 'null'`. -/
def receivedTypeOf (actual : Value) : String :=
  match actual with
  | .null => "null"
  | a => typeof a

/-- The formatting function `invalidArgType(name, expected, actual)`,
called through `fmt.apply(null, args)` so that `arguments.length` is the
length of `args` and missing parameters are `undefined`. -/
def invalidArgType (args : List Value) : Except AssertionError Value :=
  let name := args.getD 0 Value.undefined
  let expected := args.getD 1 Value.undefined
  let actual := args.getD 2 Value.undefined
  if truthy name = false then .error ⟨"name is required"⟩
  else if truthy expected = false then .error ⟨"expected is required"⟩
  else
    let msg := "The \"" ++ jsToString name ++ "\" argument must be "
    let msg := msg ++
      (match expected with
       | .arr l =>
         let len := l.length
         let mapped := l.map (fun i => jsToString i)
         if len > 1 then
           "one of type " ++ String.intercalate ", " (mapped.take (len - 1)) ++
             ", or " ++ mapped.getD (len - 1) "undefined"
         else
           "type " ++ mapped.getD 0 "undefined"
       | e => "type " ++ jsToString e)
    let msg :=
      if args.length ≥ 3 then msg ++ ". Received type " ++ receivedTypeOf actual
      else msg
    .ok (Value.str msg)

/-- The formatting function `invalidArgValue(name, expected, actual)`,
called through `fmt.apply(null, args)` like `invalidArgType`. -/
def invalidArgValue (args : List Value) : Except AssertionError Value :=
  let name := args.getD 0 Value.undefined
  let expected := args.getD 1 Value.undefined
  let actual := args.getD 2 Value.undefined
  if truthy name = false then .error ⟨"name is required"⟩
  else if truthy expected = false then .error ⟨"expected is required"⟩
  else
    let msg := "The \"" ++ jsToString name ++ "\" argument must be "
    let msg := msg ++
      (match expected with
       | .arr l =>
         let len := l.length
         let mapped := l.map (fun i => jsToString i)
         if len > 1 then
           String.intercalate ", " (mapped.take (len - 1)) ++
             ", or " ++ mapped.getD (len - 1) "undefined"
         else
           mapped.getD 0 "undefined"
       | e => jsToString e)
    let msg :=
      if args.length ≥ 3 then msg ++ ". Received " ++ receivedTypeOf actual
      else msg
    .ok (Value.str msg)

/-- The formatting function for `ERR_INVALID_FLAG`:
`(arg) => arg + " must use valid flags"`. -/
def invalidFlagFn (args : List Value) : Except AssertionError Value :=
  .ok (Value.str (jsToString (args.getD 0 Value.undefined) ++ " must use valid flags"))

/-- The formatting function for `ERR_INVALID_IP`. -/
def invalidIpFn (args : List Value) : Except AssertionError Value :=
  .ok (Value.str ("\"" ++ jsToString (args.getD 0 Value.undefined) ++
    "\" argument must be a valid IP address, got " ++ jsToString (args.getD 1 Value.undefined)))

/-- The formatting function for `ERR_INVALID_PORT`. -/
def invalidPortFn (args : List Value) : Except AssertionError Value :=
  .ok (Value.str ("\"" ++ jsToString (args.getD 0 Value.undefined) ++
    "\" argument must be >= 0 and < 65536, got " ++ jsToString (args.getD 1 Value.undefined)))

/-- The formatting function for `ERR_SETTING_SERVERS`. -/
def settingServersFn (args : List Value) : Except AssertionError Value :=
  .ok (Value.str ("c-ares failed to set servers: \"" ++ jsToString (args.getD 0 Value.undefined) ++
    "\" [" ++ jsToString (args.getD 1 Value.undefined) ++ "]"))

/-- The registry after the module has run its `E(...)` registrations, in
source order. -/
def builtinMessages : Registry :=
  let m : Registry := []
  let m := E m "ERR_ASSERTION" (.fn errAssertionFn)
  let m := E m "ERR_INVALID_ARGS" (.val (.str "invalid arguments"))
  let m := E m "ERR_INVALID_ARG_TYPE" (.fn invalidArgType)
  let m := E m "ERR_INVALID_ARG_VALUE" (.fn invalidArgValue)
  let m := E m "ERR_INVALID_CALLBACK" (.val (.str "callback must be a function"))
  let m := E m "ERR_INVALID_FLAG" (.fn invalidFlagFn)
  let m := E m "ERR_INVALID_IP" (.fn invalidIpFn)
  let m := E m "ERR_INVALID_PORT" (.fn invalidPortFn)
  E m "ERR_SETTING_SERVERS" (.fn settingServersFn)

/-! Helper lemmas about the registry and the resolver. -/

theorem mapGet_mapSet_self (r : Registry) (k : String) (t : Template) :
    mapGet (mapSet r k t) k = some t := by
  induction r with
  | nil => simp [mapSet, mapGet]
  | cons hd tl ih =>
    obtain ⟨k0, t0⟩ := hd
    by_cases hk : k0 = k
    · subst hk
      simp [mapSet, mapGet]
    · simp [mapSet, mapGet, hk, ih]

theorem message_congr_of_mapGet (fmt : List Value → Value) (r₁ r₂ : Registry) (k : String)
    (args : Option (List Value)) (h : mapGet r₁ k = mapGet r₂ k) :
    message fmt r₁ (Value.str k) args = message fmt r₂ (Value.str k) args := by
  simp only [message]
  rw [h]

theorem mapGet_E_self (r : Registry) (k : String) (v : EVal) :
    mapGet (E r k v) k =
      some (match v with | .fn f => Template.fn f | .val x => Template.str (jsToString x)) := by
  cases v <;> simp [E, mapGet_mapSet_self]

/-! The claims. -/

/-- Claim C1, amended: for every code C registered with a NON-EMPTY
fixed-string template S, `resolve(C, [])`, and `resolve(C, args)` with
`args` absent, return exactly S. (For the empty string S the resolver
throws instead: `assert(msg, ...)` rejects the falsy template.) -/
theorem message_fixed_string_empty_args (fmt : List Value → Value) (msgs : Registry)
    (C S : String) (hS : S ≠ "") (hreg : mapGet msgs C = some (Template.str S)) :
    (message fmt msgs (Value.str C) (some [])).1 = Except.ok S ∧
      (message fmt msgs (Value.str C) none).1 = Except.ok S := by
  simp [message, hreg, renderTemplate, templateTruthy, hS]

/-- Witness for C1 at `ERR_INVALID_ARGS`. -/
theorem message_fixed_string_empty_args_witness :
    "invalid arguments" ≠ "" ∧
      mapGet builtinMessages "ERR_INVALID_ARGS" = some (Template.str "invalid arguments") ∧
      ((message (fun _ => Value.undefined) builtinMessages
          (Value.str "ERR_INVALID_ARGS") (some [])).1 = Except.ok "invalid arguments" ∧
        (message (fun _ => Value.undefined) builtinMessages
          (Value.str "ERR_INVALID_ARGS") none).1 = Except.ok "invalid arguments") :=
  ⟨by decide, rfl,
    message_fixed_string_empty_args (fun _ => Value.undefined) builtinMessages
      "ERR_INVALID_ARGS" "invalid arguments" (by decide) rfl⟩

/-- Counterexample to Claim C1 as stated: a code registered with the
fixed-string template `""` does not resolve to `""`; the resolver throws an
assertion error, because `assert(msg, ...)` rejects the falsy stored
template. -/
theorem message_fixed_string_empty_args_cex :
    mapGet (E [] "EMPTY1" (EVal.val (Value.str ""))) "EMPTY1" = some (Template.str "") ∧
      (message (fun _ => Value.undefined) (E [] "EMPTY1" (EVal.val (Value.str "")))
          (Value.str "EMPTY1") (some [])).1 =
        Except.error ⟨"An invalid error message key was used: EMPTY1."⟩ ∧
      (message (fun _ => Value.undefined) (E [] "EMPTY1" (EVal.val (Value.str "")))
          (Value.str "EMPTY1") (some [])).1 ≠ Except.ok "" :=
  ⟨rfl, rfl, fun h => Except.noConfusion h⟩

/-- Claim C2: for every code C registered with a formatting-function
template f and every argument list on which f succeeds, `resolve(C, args)`
is f applied positionally to the arguments, with the returned value coerced
to a string by `String(...)`. -/
theorem message_fn_template (fmt : List Value → Value) (msgs : Registry) (C : String)
    (f : List Value → Except AssertionError Value) (l : List Value) (v : Value)
    (hreg : mapGet msgs C = some (Template.fn f)) (hf : f l = Except.ok v) :
    (message fmt msgs (Value.str C) (some l)).1 = Except.ok (jsToString v) := by
  simp [message, hreg, renderTemplate, templateTruthy, hf]

/-- Witness for C2 at `ERR_ASSERTION`. -/
theorem message_fn_template_witness :
    mapGet builtinMessages "ERR_ASSERTION" = some (Template.fn errAssertionFn) ∧
      errAssertionFn [Value.str "boom"] = Except.ok (Value.str "boom") ∧
      (message (fun _ => Value.undefined) builtinMessages
          (Value.str "ERR_ASSERTION") (some [Value.str "boom"])).1 =
        Except.ok (jsToString (Value.str "boom")) :=
  ⟨rfl, rfl,
    message_fn_template (fun _ => Value.undefined) builtinMessages "ERR_ASSERTION"
      errAssertionFn [Value.str "boom"] (Value.str "boom") rfl rfl⟩

/-- Claim C3: resolving a code that is not in the registry fails with an
assertion error whose message contains the offending code. -/
theorem message_unregistered (fmt : List Value → Value) (msgs : Registry) (C : String)
    (args : Option (List Value)) (hreg : mapGet msgs C = none) :
    ∃ e, (message fmt msgs (Value.str C) args).1 = Except.error e ∧
      ∃ pre post, e.message = pre ++ C ++ post := by
  refine ⟨⟨"An invalid error message key was used: " ++ C ++ "."⟩, ?_,
    "An invalid error message key was used: ", ".", rfl⟩
  simp [message, hreg]

/-- Witness for C3 at the never-registered code `NOPE`. -/
theorem message_unregistered_witness :
    mapGet builtinMessages "NOPE" = none ∧
      ∃ e, (message (fun _ => Value.undefined) builtinMessages
          (Value.str "NOPE") none).1 = Except.error e ∧
        ∃ pre post, e.message = pre ++ "NOPE" ++ post :=
  ⟨rfl, message_unregistered (fun _ => Value.undefined) builtinMessages "NOPE" none rfl⟩

/-- Claim C4, amended: for every code C registered with a NON-EMPTY
fixed-string template S and every non-empty argument list, `resolve(C, args)`
returns the injected sprintf-style formatter applied to the list with the
template string prepended as first positional argument. (For the empty
string S the resolver throws instead of formatting.) -/
theorem message_fixed_string_with_args (fmt : List Value → Value) (msgs : Registry)
    (C S : String) (l : List Value) (out : String) (hS : S ≠ "") (hl : l ≠ [])
    (hreg : mapGet msgs C = some (Template.str S))
    (hf : fmt (Value.str S :: l) = Value.str out) :
    (message fmt msgs (Value.str C) (some l)).1 = Except.ok out := by
  cases l with
  | nil => exact absurd rfl hl
  | cons a t =>
    simp [message, hreg, renderTemplate, templateTruthy, hS, hf, jsToString]

/-- Witness for C4 at `ERR_INVALID_CALLBACK` with one extra argument and a
formatter returning the length of its argument list. -/
theorem message_fixed_string_with_args_witness :
    "callback must be a function" ≠ "" ∧ ([Value.num 1] : List Value) ≠ [] ∧
      mapGet builtinMessages "ERR_INVALID_CALLBACK" =
        some (Template.str "callback must be a function") ∧
      (fun ll : List Value => Value.str (toString ll.length))
          (Value.str "callback must be a function" :: [Value.num 1]) = Value.str "2" ∧
      (message (fun ll : List Value => Value.str (toString ll.length)) builtinMessages
          (Value.str "ERR_INVALID_CALLBACK") (some [Value.num 1])).1 = Except.ok "2" :=
  ⟨by decide, by simp, rfl, rfl,
    message_fixed_string_with_args (fun ll : List Value => Value.str (toString ll.length))
      builtinMessages "ERR_INVALID_CALLBACK" "callback must be a function"
      [Value.num 1] "2" (by decide) (by simp) rfl rfl⟩

/-- Counterexample to Claim C4 as stated: with the fixed-string template
`""` and a non-empty argument list the resolver does not return the
formatter result (here the formatter returns `"FORMATTED"` on every input);
it throws an assertion error before formatting. -/
theorem message_fixed_string_with_args_cex :
    mapGet (E [] "EMPTY2" (EVal.val (Value.str ""))) "EMPTY2" = some (Template.str "") ∧
      (message (fun _ => Value.str "FORMATTED") (E [] "EMPTY2" (EVal.val (Value.str "")))
          (Value.str "EMPTY2") (some [Value.num 1])).1 =
        Except.error ⟨"An invalid error message key was used: EMPTY2."⟩ ∧
      (message (fun _ => Value.str "FORMATTED") (E [] "EMPTY2" (EVal.val (Value.str "")))
          (Value.str "EMPTY2") (some [Value.num 1])).1 ≠ Except.ok "FORMATTED" :=
  ⟨rfl, rfl, fun h => Except.noConfusion h⟩

/-- Claim C5: a constructed instance carries the supplied code in its
read-only `code` accessor, and a property assignment to `code` leaves the
read value unchanged (the prototype accessor has no setter). -/
theorem code_stamped_write_once (fmt : List Value → Value) (msgs : Registry) (base : BaseKind)
    (key : Value) (args : List Value) (e : NodeErrorInstance)
    (h : makeNodeError fmt msgs base key args = Except.ok e) :
    e.code = key ∧ ∀ v, (e.setProp "code" v).code = key := by
  unfold makeNodeError at h
  cases hm : (message fmt msgs key (some args)).1 with
  | error err => rw [hm] at h; simp [Except.map] at h
  | ok m =>
    rw [hm] at h
    simp only [Except.map] at h
    injection h with h
    subst h
    exact ⟨rfl, fun v => by simp [NodeErrorInstance.setProp, NodeErrorInstance.code]⟩

/-- Witness for C5 at `ERR_INVALID_ARGS` over the `Error` base kind. -/
theorem code_stamped_write_once_witness :
    makeNodeError (fun _ => Value.undefined) builtinMessages ⟨"Error"⟩
        (Value.str "ERR_INVALID_ARGS") [] =
      Except.ok ⟨"Error", Value.str "ERR_INVALID_ARGS",
        [("message", Value.str "invalid arguments")]⟩ ∧
      ((⟨"Error", Value.str "ERR_INVALID_ARGS",
          [("message", Value.str "invalid arguments")]⟩ : NodeErrorInstance).code =
          Value.str "ERR_INVALID_ARGS" ∧
        ∀ v, ((⟨"Error", Value.str "ERR_INVALID_ARGS",
            [("message", Value.str "invalid arguments")]⟩ : NodeErrorInstance).setProp
              "code" v).code = Value.str "ERR_INVALID_ARGS") :=
  ⟨rfl,
    code_stamped_write_once (fun _ => Value.undefined) builtinMessages ⟨"Error"⟩
      (Value.str "ERR_INVALID_ARGS") [] _ rfl⟩

/-- Claim C6: a constructed instance with code C over a base kind named N
reads its `name` accessor as `N ++ "[" ++ C ++ "]"`. -/
theorem name_is_base_bracket_code (fmt : List Value → Value) (msgs : Registry)
    (base : BaseKind) (C : String) (args : List Value) (e : NodeErrorInstance)
    (h : makeNodeError fmt msgs base (Value.str C) args = Except.ok e) :
    e.name = base.name ++ "[" ++ C ++ "]" := by
  unfold makeNodeError at h
  cases hm : (message fmt msgs (Value.str C) (some args)).1 with
  | error err => rw [hm] at h; simp [Except.map] at h
  | ok m =>
    rw [hm] at h
    simp only [Except.map] at h
    injection h with h
    subst h
    simp [NodeErrorInstance.name, jsToString]

/-- Witness for C6 at `ERR_INVALID_FLAG` over the `RangeError` base kind. -/
theorem name_is_base_bracket_code_witness :
    makeNodeError (fun _ => Value.undefined) builtinMessages ⟨"RangeError"⟩
        (Value.str "ERR_INVALID_FLAG") [Value.str "x"] =
      Except.ok ⟨"RangeError", Value.str "ERR_INVALID_FLAG",
        [("message", Value.str "x must use valid flags")]⟩ ∧
      (⟨"RangeError", Value.str "ERR_INVALID_FLAG",
          [("message", Value.str "x must use valid flags")]⟩ : NodeErrorInstance).name =
        (⟨"RangeError"⟩ : BaseKind).name ++ "[" ++ "ERR_INVALID_FLAG" ++ "]" :=
  ⟨rfl,
    name_is_base_bracket_code (fun _ => Value.undefined) builtinMessages ⟨"RangeError"⟩
      "ERR_INVALID_FLAG" [Value.str "x"] _ rfl⟩

/-- Claim C7: the TypeError-based coded kind constructed with
`ERR_INVALID_ARG_TYPE, "name", "string", 5` has the message
`The "name" argument must be type string. Received type number`, the code
`ERR_INVALID_ARG_TYPE`, and the name `TypeError[ERR_INVALID_ARG_TYPE]`,
whatever formatter is injected (a function template never consults it). -/
theorem invalid_arg_type_example (fmt : List Value → Value) :
    ∃ e, makeNodeError fmt builtinMessages ⟨"TypeError"⟩ (Value.str "ERR_INVALID_ARG_TYPE")
        [Value.str "name", Value.str "string", Value.num 5] = Except.ok e ∧
      e.getMessage =
        Value.str "The \"name\" argument must be type string. Received type number" ∧
      e.code = Value.str "ERR_INVALID_ARG_TYPE" ∧
      e.name = "TypeError[ERR_INVALID_ARG_TYPE]" :=
  ⟨⟨"TypeError", Value.str "ERR_INVALID_ARG_TYPE",
      [("message", Value.str "The \"name\" argument must be type string. Received type number")]⟩,
    rfl, rfl, rfl, rfl⟩

/-- Claim C8: resolving with a non-string key fails with an assertion-kind
error, for every registry and every argument list: `assert.strictEqual`
rejects the key before any lookup. -/
theorem message_non_string_key (fmt : List Value → Value) (msgs : Registry) (key : Value)
    (args : Option (List Value)) (hk : typeof key ≠ "string") :
    ∃ e, (message fmt msgs key args).1 = Except.error e := by
  cases key <;> first
    | exact absurd rfl hk
    | exact ⟨_, rfl⟩

/-- Witness for C8 at the numeric key 3. -/
theorem message_non_string_key_witness :
    typeof (Value.num 3) ≠ "string" ∧
      ∃ e, (message (fun _ => Value.undefined) builtinMessages (Value.num 3) none).1 =
        Except.error e :=
  ⟨by decide,
    message_non_string_key (fun _ => Value.undefined) builtinMessages (Value.num 3) none
      (by decide)⟩

/-- Claim C9: registration is idempotent. Registering the same code with
the same template twice resolves exactly as registering it once, and more
generally resolution of a code depends only on its latest registration,
whatever other registrations came before. -/
theorem register_idempotent (fmt : List Value → Value) (r₁ r₂ : Registry) (k : String)
    (v : EVal) (args : Option (List Value)) :
    message fmt (E (E r₁ k v) k v) (Value.str k) args =
        message fmt (E r₁ k v) (Value.str k) args ∧
      message fmt (E r₂ k v) (Value.str k) args =
        message fmt (E r₁ k v) (Value.str k) args := by
  constructor <;>
    exact message_congr_of_mapGet _ _ _ _ _ (by rw [mapGet_E_self, mapGet_E_self])

/-- Claim C10, amended: for a code registered with a NON-EMPTY fixed-string
template and a non-empty caller-supplied argument array, `message` mutates
the array in place, prepending the template string via `args.unshift(msg)`,
so after the call the array has one extra leading element. (For the empty
template string the resolver throws before mutating.) -/
theorem message_unshifts_args (fmt : List Value → Value) (msgs : Registry) (C S : String)
    (l : List Value) (hS : S ≠ "") (hl : l ≠ [])
    (hreg : mapGet msgs C = some (Template.str S)) :
    (message fmt msgs (Value.str C) (some l)).2 = some (Value.str S :: l) := by
  cases l with
  | nil => exact absurd rfl hl
  | cons a t => simp [message, hreg, renderTemplate, templateTruthy, hS]

/-- Witness for C10 at `ERR_INVALID_ARGS` with one argument. -/
theorem message_unshifts_args_witness :
    "invalid arguments" ≠ "" ∧ ([Value.num 7] : List Value) ≠ [] ∧
      mapGet builtinMessages "ERR_INVALID_ARGS" = some (Template.str "invalid arguments") ∧
      (message (fun _ => Value.undefined) builtinMessages
          (Value.str "ERR_INVALID_ARGS") (some [Value.num 7])).2 =
        some [Value.str "invalid arguments", Value.num 7] :=
  ⟨by decide, by simp, rfl,
    message_unshifts_args (fun _ => Value.undefined) builtinMessages "ERR_INVALID_ARGS"
      "invalid arguments" [Value.num 7] (by decide) (by simp) rfl⟩

/-- Counterexample to Claim C10 as stated: with the fixed-string template
`""` and a one-element argument array, the resolver throws before
`args.unshift` runs, so the array still has exactly one element, not two. -/
theorem message_unshifts_args_cex :
    mapGet (E [] "EMPTY3" (EVal.val (Value.str ""))) "EMPTY3" = some (Template.str "") ∧
      (message (fun _ => Value.undefined) (E [] "EMPTY3" (EVal.val (Value.str "")))
          (Value.str "EMPTY3") (some [Value.num 1])).2 = some [Value.num 1] ∧
      ((message (fun _ => Value.undefined) (E [] "EMPTY3" (EVal.val (Value.str "")))
          (Value.str "EMPTY3") (some [Value.num 1])).2.map List.length) ≠ some 2 :=
  ⟨rfl, rfl, by decide⟩

end NodeErrors
